import Mathlib

/-!
Shallow embedding of `wkhtmltoimage.go` from eatigo/go-wkhtmltopdf.

Go `[]byte` buffers are `List Nat`, Go `int` is `Int`, Go `string` is
`String`.  Fallible Go functions return `Except String`/`Option`; a Go
runtime panic is modelled as `none` of an `Option` result.  External
collaborators (the OS path lookups, the subprocess, the stdlib image
decoders and the base64 decoder) are parameters of the embedded
functions, so theorems quantify over them.
-/

namespace Wk

/-- Embeds the Go struct `ImageOptions` (field for field, with Go zero
values as defaults). -/
structure ImageOptions where
  BinaryPath : String := ""
  Input : String := ""
  Format : String := ""
  Height : Int := 0
  Width : Int := 0
  Quality : Int := 0
  Html : String := ""
  Output : String := ""
  deriving Repr, DecidableEq

/-- The character for a single decimal digit value (`0 ≤ d ≤ 9`). -/
def digitChar10 (d : Nat) : Char := Char.ofNat (48 + d)

/-- Numeric value of a decimal digit character. -/
def digitVal (c : Char) : Nat := c.toNat - 48

/-- Little-endian decimal digit characters of `n`, with explicit fuel
(`fuel = n` is always enough). -/
def natDecRev (fuel n : Nat) : List Char :=
  match fuel with
  | 0 => []
  | f + 1 => if n = 0 then [] else digitChar10 (n % 10) :: natDecRev f (n / 10)

/-- Decimal digit characters of `n`, most significant first. -/
def natDec (n : Nat) : List Char :=
  if n = 0 then ['0'] else (natDecRev n n).reverse

/-- Embeds Go `strconv.Itoa`: standard base-10 rendering of an integer,
a leading `'-'` for negative values. -/
def itoa (i : Int) : String :=
  if i < 0 then String.mk ('-' :: natDec i.natAbs) else String.mk (natDec i.toNat)

/-- Base-10 parse of a digit string (no sign). -/
def parseNatDec (cs : List Char) : Option Nat :=
  if cs.isEmpty then none
  else if cs.all Char.isDigit then some (Nat.ofDigits 10 ((cs.map digitVal).reverse))
  else none

/-- Base-10 parse of an integer string, the inverse direction of `itoa`
(used to state "the element parses back to the same integer"). -/
def atoi (s : String) : Option Int :=
  match s.data with
  | [] => none
  | c :: cs =>
    if c = '-' then (parseNatDec cs).map (fun n => -(n : Int))
    else (parseNatDec (c :: cs)).map (fun n => (n : Int))

/-- Embeds Go `buildParams`: validates the options and builds the
argument list in source order.  Go mutates `options.Html` through the
pointer, so the (possibly updated) options record is returned alongside
the argument list; the error case carries no argument list. -/
def buildParams (options : ImageOptions) : Except String (List String × ImageOptions) :=
  if options.Input = "" then .error "Must provide input"
  else
    let a : List String := ["-q", "--disable-plugins", "--format"]
    let a := a ++ [if options.Format ≠ "" then options.Format else "png"]
    let a := a ++ (if options.Height ≠ 0 then ["--height", itoa options.Height] else [])
    let a := a ++ (if options.Width ≠ 0 then ["--width", itoa options.Width] else [])
    let a := a ++ (if options.Quality ≠ 0 then ["--quality", itoa options.Quality] else [])
    let options := if options.Input ≠ "-" then { options with Html := "" } else options
    let a := a ++ [options.Input]
    let a := a ++ [if options.Output = "" then "-" else options.Output]
    .ok (a, options)

/-- The element immediately following the first occurrence of `flag` in
an argument list (`none` when `flag` is absent or last). -/
def flagValue (l : List String) (flag : String) : Option String :=
  match l with
  | [] => none
  | x :: rest => if x = flag then rest.head? else flagValue rest flag

/-- Embeds the trim-retry `for` loop inside Go `cleanupOutput`, for a
given decoder.  Go semantics modelled exactly:
`decoded, err := decode(img); for err != nil { img = img[1:]; if
len(img) == 0 { break }; decoded, err = decode(img) }`.
Result `none` is the runtime panic of `img[1:]` on an empty slice;
`some (d?, rest)` is loop exit with Go's `decoded` (`none` = the nil
interface left by a failed decode) and the final buffer. -/
def trimLoop {α : Type} (decode : List Nat → Option α) : List Nat → Option (Option α × List Nat)
  | [] =>
    match decode [] with
    | some d => some (some d, [])
    | none => none
  | b :: rest =>
    match decode (b :: rest) with
    | some d => some (some d, b :: rest)
    | none =>
      if rest.isEmpty then some (none, rest)
      else trimLoop decode rest

/-- Embeds Go `cleanupOutput`.  The stdlib decoders/encoders are
parameters; Go `png.Encode`/`jpeg.Encode` dereference the image
interface, so calling them on the nil image left by a failed decode is
a runtime panic, modelled as `none`. -/
def cleanupOutput {α β : Type} (pngDecode : List Nat → Option α) (pngEncode : α → List Nat)
    (jpegDecode : List Nat → Option β) (jpegEncode : β → List Nat)
    (img : List Nat) (format : String) : Option (List Nat) :=
  if format = "png" then
    match trimLoop pngDecode img with
    | none => none
    | some (none, _) => none
    | some (some d, _) => some (pngEncode d)
  else if format = "jpg" then
    match trimLoop jpegDecode img with
    | none => none
    | some (none, _) => none
    | some (some d, _) => some (jpegEncode d)
  else some img

/-- Modelled from the spec: `stringStore` (the type of the package-level
`binImagePath` cache) is declared outside this source file; per the
spec it is a process-wide, lazily discovered, cached string set at most
once per discovery, with `Get` returning the stored value and `""`
meaning "not yet resolved".  It is modelled as an explicit `String`
value threaded through the embedded functions. -/
abbrev StringStore := String

/-- The executable name constant `exe` of `findPath`. -/
def wkExe : String := "wkhtmltoimage"

/-- Model of Go `filepath.Join` for the two-argument uses in
`findPath`. -/
def joinPath (dir file : String) : String := dir ++ "/" ++ file

/-- The external OS facilities consulted by `findPath`, as an explicit
environment: `exeDirAbs` is `filepath.Abs(filepath.Dir(os.Args[0]))`,
`lookPath` is `exec.LookPath` (`some p` for a nil error with result
`p`), `envVar` is `os.Getenv("WKHTMLTOIMAGE_PATH")`. -/
structure DiscoveryEnv where
  exeDirAbs : Except String String
  lookPath : String → Option String
  envVar : String

/-- Go's `if err == nil && path != ""` acceptance test on a `LookPath`
result. -/
def lookHit (r : Option String) : Option String :=
  match r with
  | some p => if p = "" then none else some p
  | none => none

/-- Embeds Go `findPath`.  Returns the function result, the cache value
after the call, and the trace of discovery steps performed (an entry is
appended exactly where the Go code calls `exec.LookPath` or
`os.Getenv`), so that frame claims about which lookups run are
statable. -/
def findPath (env : DiscoveryEnv) (cache : StringStore) :
    Except String Unit × StringStore × List String :=
  if cache ≠ "" then (.ok (), cache, [])
  else
    match env.exeDirAbs with
    | .error e => (.error e, cache, [])
    | .ok exeDir =>
      match lookHit (env.lookPath (joinPath exeDir wkExe)) with
      | some p => (.ok (), p, ["lookPath adjacent"])
      | none =>
        match lookHit (env.lookPath wkExe) with
        | some p => (.ok (), p, ["lookPath adjacent", "lookPath system"])
        | none =>
          if env.envVar = "" then
            (.error (wkExe ++ " not found"), cache,
              ["lookPath adjacent", "lookPath system", "getenv"])
          else
            match lookHit (env.lookPath (joinPath env.envVar wkExe)) with
            | some p =>
              (.ok (), p, ["lookPath adjacent", "lookPath system", "getenv", "lookPath envdir"])
            | none =>
              (.error (wkExe ++ " not found"), cache,
                ["lookPath adjacent", "lookPath system", "getenv", "lookPath envdir"])

/-- The subprocess invocation built by `exec.Command` plus the optional
stdin wiring: binary path, argument list, and piped stdin content. -/
structure SpawnInfo where
  binary : String
  args : List String
  stdin : Option String
  deriving Repr, DecidableEq

/-- Observable outcome of one `GenerateImage` call: `result` is the Go
return pair (bytes, error), `none` when `cleanupOutput` panics;
`cache` is the process-wide store after the call; `lookups` is the
trace of discovery steps `findPath` performed; `spawned` is the
subprocess invocation, `none` when no process was spawned. -/
structure GenResult where
  result : Option (List Nat × Option String)
  cache : StringStore
  lookups : List String
  spawned : Option SpawnInfo

/-- Embeds Go `GenerateImage`.  `run` is the external subprocess: it
maps the spawn to the combined output bytes and the execution error of
`cmd.CombinedOutput()`.  The return value of the unconditional
`findPath()` call is discarded, exactly as in the source; the
`fmt.Println` of a run error is a side effect with no bearing on the
returned values and is not modelled. -/
def GenerateImage {α β : Type} (env : DiscoveryEnv)
    (run : SpawnInfo → List Nat × Option String)
    (pngDecode : List Nat → Option α) (pngEncode : α → List Nat)
    (jpegDecode : List Nat → Option β) (jpegEncode : β → List Nat)
    (cache : StringStore) (options : ImageOptions) : GenResult :=
  match buildParams options with
  | .error e => ⟨some ([], some e), cache, [], none⟩
  | .ok (arr, options) =>
    let fp := findPath env cache
    let cache := fp.2.1
    let lookups := fp.2.2
    let binPath := if options.BinaryPath = "" then cache else options.BinaryPath
    if binPath = "" then ⟨some ([], some "BinaryPath not set"), cache, lookups, none⟩
    else
      let spawn : SpawnInfo :=
        ⟨binPath, arr, if options.Html ≠ "" then some options.Html else none⟩
      let ro := run spawn
      let trimmed := cleanupOutput pngDecode pngEncode jpegDecode jpegEncode ro.1 options.Format
      ⟨trimmed.map (fun t => (t, ro.2)), cache, lookups, some spawn⟩

/-- Modelled from the spec: one entry of the page list decoded by
`ImageFromJSON` (the type `jsonPDFGenerator` lives outside this source
file).  Per the spec's JSON input contract, a page optionally carries a
base64-encoded HTML blob (`Base64PageData`) or an input file/URL string
(`InputFile`). -/
structure JsonPage where
  InputFile : String := ""
  Base64PageData : String := ""
  deriving Repr, DecidableEq

/-- Modelled from the spec: the decoded JSON document of
`ImageFromJSON`, an object with a list of page entries. -/
structure JsonPDFGenerator where
  Pages : List JsonPage := []
  deriving Repr, DecidableEq

/-- Embeds Go `ImageFromJSON`.  The JSON decode of the reader is the
`decoded` argument (`Except.error` for a decode failure) and Go
`base64.StdEncoding.DecodeString` is the `b64Decode` parameter.  The
result distinguishes Go `nil` bytes (`none`) from a non-nil slice
(`some bytes`); the outer `none` is a runtime panic propagated from
`cleanupOutput`. -/
def ImageFromJSON {α β : Type} (env : DiscoveryEnv)
    (run : SpawnInfo → List Nat × Option String)
    (pngDecode : List Nat → Option α) (pngEncode : α → List Nat)
    (jpegDecode : List Nat → Option β) (jpegEncode : β → List Nat)
    (b64Decode : String → Except String String) (cache : StringStore)
    (decoded : Except String JsonPDFGenerator) :
    Option (Option (List Nat) × Option String) :=
  match decoded with
  | .error e => some (none, some ("error unmarshaling JSON: " ++ e))
  | .ok jp =>
    match jp.Pages with
    | p :: _ =>
      if p.Base64PageData = "" then
        let r := GenerateImage env run pngDecode pngEncode jpegDecode jpegEncode cache
          { Input := p.InputFile }
        r.result.map (fun be => (some be.1, be.2))
      else
        match b64Decode p.Base64PageData with
        | .error e => some (none, some ("error decoding base 64 input on page 0: " ++ e))
        | .ok buf =>
          let r := GenerateImage env run pngDecode pngEncode jpegDecode jpegEncode cache
            { Input := "-", Html := buf }
          r.result.map (fun be => (some be.1, be.2))
    | [] => some (none, none)

/-! ### Decimal rendering and parsing lemmas -/

theorem digitVal_digitChar10 (d : Nat) (h : d < 10) : digitVal (digitChar10 d) = d := by
  interval_cases d <;> decide

theorem isDigit_digitChar10 (d : Nat) (h : d < 10) : (digitChar10 d).isDigit = true := by
  interval_cases d <;> decide

theorem natDecRev_all_digits (f : Nat) : ∀ n c, c ∈ natDecRev f n → c.isDigit = true := by
  induction f with
  | zero => intro n c hc; simp [natDecRev] at hc
  | succ f ih =>
    intro n c hc
    rw [natDecRev] at hc
    by_cases hn : n = 0
    · simp [hn] at hc
    · rw [if_neg hn] at hc
      rcases List.mem_cons.mp hc with h | h
      · exact h ▸ isDigit_digitChar10 _ (Nat.mod_lt _ (by omega))
      · exact ih _ _ h

theorem ofDigits_natDecRev (f : Nat) :
    ∀ n, n ≤ f → Nat.ofDigits 10 ((natDecRev f n).map digitVal) = n := by
  induction f with
  | zero =>
    intro n hn
    interval_cases n
    simp [natDecRev]
  | succ f ih =>
    intro n hn
    by_cases hz : n = 0
    · simp [natDecRev, hz]
    · rw [natDecRev, if_neg hz, List.map_cons, Nat.ofDigits_cons,
        digitVal_digitChar10 _ (Nat.mod_lt _ (by omega)),
        ih (n / 10) (by omega)]
      omega

theorem natDec_all_digits (n : Nat) : ∀ c ∈ natDec n, c.isDigit = true := by
  intro c hc
  rw [natDec] at hc
  by_cases hz : n = 0
  · rw [if_pos hz] at hc; simp at hc; subst hc; decide
  · rw [if_neg hz, List.mem_reverse] at hc
    exact natDecRev_all_digits n n c hc

theorem natDec_ne_nil (n : Nat) : natDec n ≠ [] := by
  rw [natDec]
  by_cases hz : n = 0
  · simp [hz]
  · rw [if_neg hz]
    have : natDecRev n n ≠ [] := by
      cases n with
      | zero => exact absurd rfl hz
      | succ m => rw [natDecRev, if_neg hz]; exact List.cons_ne_nil _ _
    simpa using this

theorem parseNatDec_natDec (n : Nat) : parseNatDec (natDec n) = some n := by
  by_cases hz : n = 0
  · subst hz; decide
  · have hne : natDec n ≠ [] := natDec_ne_nil n
    have hall : (natDec n).all Char.isDigit = true :=
      List.all_eq_true.mpr (fun c hc => natDec_all_digits n c hc)
    rw [parseNatDec, if_neg (by simpa [List.isEmpty_iff] using hne), if_pos hall]
    rw [natDec, if_neg hz, List.map_reverse, List.reverse_reverse]
    rw [ofDigits_natDecRev n n le_rfl]

theorem dash_not_digit : ('-').isDigit = false := by decide

theorem natDec_head_ne_dash (n : Nat) (c : Char) (cs : List Char)
    (h : natDec n = c :: cs) : c ≠ '-' := by
  intro hc
  have : c ∈ natDec n := h ▸ List.mem_cons_self c cs
  have := natDec_all_digits n c this
  rw [hc] at this
  exact absurd this (by decide)

theorem atoi_itoa (i : Int) : atoi (itoa i) = some i := by
  by_cases hneg : i < 0
  · rw [itoa, if_pos hneg]
    show atoi (String.mk ('-' :: natDec i.natAbs)) = some i
    have h2 : ((i.natAbs : Nat) : Int) = -i := by omega
    rw [atoi]
    simp [parseNatDec_natDec, h2]
  · rw [itoa, if_neg hneg]
    rcases hd : natDec i.toNat with _ | ⟨c, cs⟩
    · exact absurd hd (natDec_ne_nil _)
    · show atoi (String.mk (c :: cs)) = some i
      have h2 : ((i.toNat : Nat) : Int) = i := by omega
      rw [atoi]
      simp only [if_neg (natDec_head_ne_dash _ _ _ hd)]
      rw [← hd, parseNatDec_natDec]
      simp [h2]

theorem itoa_ne_double_dash (i : Int) (t : List Char) :
    itoa i ≠ String.mk ('-' :: '-' :: t) := by
  intro h
  by_cases hneg : i < 0
  · rw [itoa, if_pos hneg] at h
    have hdata : '-' :: natDec i.natAbs = '-' :: '-' :: t := congrArg String.data h
    have htail : natDec i.natAbs = '-' :: t := by injection hdata
    exact natDec_head_ne_dash _ _ _ htail rfl
  · rw [itoa, if_neg hneg] at h
    have hdata : natDec i.toNat = '-' :: '-' :: t := congrArg String.data h
    exact natDec_head_ne_dash _ _ _ hdata rfl

theorem itoa_ne_height (i : Int) : itoa i ≠ "--height" :=
  itoa_ne_double_dash i ['h', 'e', 'i', 'g', 'h', 't']

theorem itoa_ne_width (i : Int) : itoa i ≠ "--width" :=
  itoa_ne_double_dash i ['w', 'i', 'd', 't', 'h']

theorem itoa_ne_quality (i : Int) : itoa i ≠ "--quality" :=
  itoa_ne_double_dash i ['q', 'u', 'a', 'l', 'i', 't', 'y']

/-! ### `flagValue` lemmas -/

theorem flagValue_cons_self (f : String) (l : List String) :
    flagValue (f :: l) f = l.head? := by
  rw [flagValue, if_pos rfl]

theorem flagValue_cons_ne (x f : String) (l : List String) (h : x ≠ f) :
    flagValue (x :: l) f = flagValue l f := by
  rw [flagValue, if_neg h]

theorem flagValue_append_of_not_mem (f : String) (l₁ l₂ : List String) (h : f ∉ l₁) :
    flagValue (l₁ ++ l₂) f = flagValue l₂ f := by
  induction l₁ with
  | nil => rfl
  | cons x xs ih =>
    rw [List.cons_append,
      flagValue_cons_ne _ _ _ (fun hx => h (List.mem_cons.mpr (Or.inl hx.symm)))]
    exact ih (fun hx => h (List.mem_cons_of_mem x hx))

/-! ### `buildParams` structure lemmas -/

/-- Closed form of `buildParams` on valid input: the argument list in
source order, and the options record with `Html` cleared unless the
input is the stdin sentinel. -/
theorem buildParams_eq (opts : ImageOptions) (h : opts.Input ≠ "") :
    buildParams opts = .ok (
      "-q" :: "--disable-plugins" :: "--format" ::
        (if opts.Format ≠ "" then opts.Format else "png") ::
        ((if opts.Height ≠ 0 then ["--height", itoa opts.Height] else []) ++
          ((if opts.Width ≠ 0 then ["--width", itoa opts.Width] else []) ++
            ((if opts.Quality ≠ 0 then ["--quality", itoa opts.Quality] else []) ++
              [opts.Input, if opts.Output = "" then "-" else opts.Output]))),
      if opts.Input ≠ "-" then { opts with Html := "" } else opts) := by
  rw [buildParams, if_neg h]
  by_cases hdash : opts.Input = "-" <;> simp [hdash, List.append_assoc]

/-- Validation failure of `buildParams` on empty input (helper form). -/
theorem buildParams_empty_input_aux (opts : ImageOptions) (h : opts.Input = "") :
    buildParams opts = .error "Must provide input" := by
  rw [buildParams, if_pos h]

/-- `buildParams` never changes any field other than `Html`. -/
theorem buildParams_fields (opts : ImageOptions) (args : List String) (opts1 : ImageOptions)
    (h : buildParams opts = .ok (args, opts1)) :
    opts1.BinaryPath = opts.BinaryPath ∧ opts1.Input = opts.Input ∧
      opts1.Format = opts.Format ∧ opts1.Output = opts.Output := by
  by_cases hin : opts.Input = ""
  · rw [buildParams_empty_input_aux opts hin] at h
    exact absurd h (by simp)
  · rw [buildParams_eq opts hin] at h
    have h2 : opts1 = if opts.Input ≠ "-" then { opts with Html := "" } else opts := by
      have := (Except.ok.inj h).symm
      exact congrArg Prod.snd this
    rw [h2]
    split <;> exact ⟨rfl, rfl, rfl, rfl⟩

/-- The `--format` flag and its value, shared shape for several
claims. -/
theorem buildParams_format_value (opts : ImageOptions) (h : opts.Input ≠ "") :
    ∃ args opts1, buildParams opts = .ok (args, opts1) ∧
      flagValue args "--format" = some (if opts.Format = "" then "png" else opts.Format) := by
  refine ⟨_, _, buildParams_eq opts h, ?_⟩
  rw [flagValue_cons_ne _ _ _ (by decide), flagValue_cons_ne _ _ _ (by decide),
    flagValue_cons_self]
  by_cases hf : opts.Format = "" <;> simp [hf]

/-! ### `findPath` / `GenerateImage` structure lemmas -/

/-- When every discovery step fails, `findPath` on an empty cache
returns the "not found" error and leaves the cache empty. -/
theorem findPath_all_fail (env : DiscoveryEnv) (d : String)
    (h1 : env.exeDirAbs = .ok d)
    (h2 : lookHit (env.lookPath (joinPath d wkExe)) = none)
    (h3 : lookHit (env.lookPath wkExe) = none)
    (h4 : env.envVar = "" ∨ lookHit (env.lookPath (joinPath env.envVar wkExe)) = none) :
    (findPath env "").1 = .error "wkhtmltoimage not found" ∧ (findPath env "").2.1 = "" := by
  rw [findPath]
  simp only [h1, h2, h3]
  rcases h4 with h4 | h4
  · simp [h4, wkExe]
  · by_cases h5 : env.envVar = ""
    · simp [h5, wkExe]
    · simp only [wkExe] at h4
      simp [h5, h4, wkExe]

/-- With a non-empty binary path in the (translated) options, the
spawned invocation uses exactly that path and the translated argument
list; the cache value is never consulted for the spawn. -/
theorem generateImage_spawned {α β : Type} (env : DiscoveryEnv)
    (run : SpawnInfo → List Nat × Option String)
    (pd : List Nat → Option α) (pe : α → List Nat)
    (jd : List Nat → Option β) (je : β → List Nat)
    (cache : StringStore) (opts : ImageOptions) (args : List String) (opts1 : ImageOptions)
    (hbp : buildParams opts = .ok (args, opts1)) (hb : opts1.BinaryPath ≠ "") :
    (GenerateImage env run pd pe jd je cache opts).spawned =
      some ⟨opts1.BinaryPath, args, if opts1.Html ≠ "" then some opts1.Html else none⟩ := by
  rw [GenerateImage, hbp]
  simp only [if_neg hb]

/-- When the translation succeeds, the binary path is empty and the
cache after `findPath` is still empty, `GenerateImage` returns the
empty byte slice with the "BinaryPath not set" error, spawning
nothing. -/
theorem generateImage_no_binary {α β : Type} (env : DiscoveryEnv)
    (run : SpawnInfo → List Nat × Option String)
    (pd : List Nat → Option α) (pe : α → List Nat)
    (jd : List Nat → Option β) (je : β → List Nat)
    (cache : StringStore) (opts : ImageOptions) (args : List String) (opts1 : ImageOptions)
    (hbp : buildParams opts = .ok (args, opts1)) (hb : opts1.BinaryPath = "")
    (hc : (findPath env cache).2.1 = "") :
    GenerateImage env run pd pe jd je cache opts =
      ⟨some ([], some "BinaryPath not set"), "", (findPath env cache).2.2, none⟩ := by
  rw [GenerateImage, hbp]
  simp [hb, hc]

/-! ### Claim theorems -/

/-- C1: the spec claims the repair loop never raises an error itself
and, when one-byte trimming exhausts the buffer without a successful
decode, returns the exhausted (possibly empty) buffer as-is.  The code
does neither: when no suffix decodes, the loop leaves Go's `decoded`
as the nil interface and falls through to `png.Encode(buf, decoded)`,
which dereferences nil and panics; for an initially empty buffer,
`img = img[1:]` already panics with a slice bound error.  Evidence of
the divergence: for any decoder failing on the one-byte buffer `[0]`
(and on `[]`), `cleanupOutput` is the panic value `none`, not `some`
of the exhausted buffer. -/
theorem cleanupOutput_exhausted_panics {α β : Type} (pngDecode : List Nat → Option α)
    (pngEncode : α → List Nat) (jpegDecode : List Nat → Option β) (jpegEncode : β → List Nat)
    (h0 : pngDecode [0] = none) (hnil : pngDecode [] = none) :
    cleanupOutput pngDecode pngEncode jpegDecode jpegEncode [0] "png" = none ∧
      cleanupOutput pngDecode pngEncode jpegDecode jpegEncode [] "png" = none := by
  constructor <;> simp [cleanupOutput, trimLoop, h0, hnil]

theorem cleanupOutput_exhausted_panics_witness :
    cleanupOutput (fun _ => (none : Option Unit)) (fun _ => []) (fun _ => (none : Option Unit))
        (fun _ => []) [0] "png" = none ∧
      cleanupOutput (fun _ => (none : Option Unit)) (fun _ => []) (fun _ => (none : Option Unit))
        (fun _ => []) [] "png" = none :=
  cleanupOutput_exhausted_panics _ _ _ _ rfl rfl

/-- C5: with `Format` left unset (empty string), `cleanupOutput`
returns the captured bytes unmodified — the repair loop only runs for
the literal formats `"png"` and `"jpg"` — even though the translator
emitted `"png"` after the `--format` flag for that same unset
`Format`. -/
theorem cleanupOutput_unset_format {α β : Type} (pngDecode : List Nat → Option α)
    (pngEncode : α → List Nat) (jpegDecode : List Nat → Option β) (jpegEncode : β → List Nat)
    (img : List Nat) (opts : ImageOptions) (hf : opts.Format = "") (hin : opts.Input ≠ "") :
    cleanupOutput pngDecode pngEncode jpegDecode jpegEncode img opts.Format = some img ∧
      ∃ args opts1, buildParams opts = .ok (args, opts1) ∧
        flagValue args "--format" = some "png" := by
  constructor
  · rw [hf, cleanupOutput]
    simp
  · obtain ⟨args, opts1, hbp, hfv⟩ := buildParams_format_value opts hin
    exact ⟨args, opts1, hbp, by rw [hfv, if_pos hf]⟩

theorem cleanupOutput_unset_format_witness :
    cleanupOutput (fun _ => (none : Option Unit)) (fun _ => []) (fun _ => (none : Option Unit))
        (fun _ => []) [7, 8] (({ Input := "x" } : ImageOptions)).Format = some [7, 8] ∧
      ∃ args opts1, buildParams { Input := "x" } = .ok (args, opts1) ∧
        flagValue args "--format" = some "png" :=
  cleanupOutput_unset_format _ _ _ _ [7, 8] { Input := "x" } rfl (by decide)

/-- C6 (amended): for every options record with empty input,
`buildParams` fails with the validation error `"Must provide input"`
(capital M in the code, unlike the claim's quoted message) and
produces no argument list. -/
theorem buildParams_empty_input_error (opts : ImageOptions) (h : opts.Input = "") :
    buildParams opts = .error "Must provide input" :=
  buildParams_empty_input_aux opts h

theorem buildParams_empty_input_error_witness :
    buildParams { Input := "" } = .error "Must provide input" :=
  buildParams_empty_input_error { Input := "" } rfl

/-- C6 counterexample: the validation error message is
`"Must provide input"`, not the claimed `"must provide input"`. -/
theorem buildParams_empty_input_cx :
    buildParams { Input := "" } = .error "Must provide input" ∧
      ("Must provide input" : String) ≠ "must provide input" :=
  ⟨rfl, by decide⟩

/-- C7: for every options record with non-empty input, the argument
list ends with exactly the input source followed by the output
destination, the sentinel `"-"` standing in for an empty
destination. -/
theorem buildParams_trailing_pair (opts : ImageOptions) (h : opts.Input ≠ "") :
    ∃ args opts1 front, buildParams opts = .ok (args, opts1) ∧
      args = front ++ [opts.Input, if opts.Output = "" then "-" else opts.Output] := by
  refine ⟨_, _,
    "-q" :: "--disable-plugins" :: "--format" ::
      (if opts.Format ≠ "" then opts.Format else "png") ::
      ((if opts.Height ≠ 0 then ["--height", itoa opts.Height] else []) ++
        ((if opts.Width ≠ 0 then ["--width", itoa opts.Width] else []) ++
          (if opts.Quality ≠ 0 then ["--quality", itoa opts.Quality] else []))),
    buildParams_eq opts h, ?_⟩
  simp [List.append_assoc]

theorem buildParams_trailing_pair_witness :
    ∃ args opts1 front, buildParams { Input := "x", Output := "o" } = .ok (args, opts1) ∧
      args = front ++ ["x", if ("o" : String) = "" then "-" else "o"] :=
  buildParams_trailing_pair { Input := "x", Output := "o" } (by decide)

/-- C9: the translator always emits `--format`; the element following
it is `"png"` when `Format` is unset and the supplied value verbatim
otherwise. -/
theorem buildParams_format_flag (opts : ImageOptions) (h : opts.Input ≠ "") :
    ∃ args opts1, buildParams opts = .ok (args, opts1) ∧
      flagValue args "--format" = some (if opts.Format = "" then "png" else opts.Format) :=
  buildParams_format_value opts h

theorem buildParams_format_flag_witness :
    ∃ args opts1, buildParams { Input := "x", Format := "jpg" } = .ok (args, opts1) ∧
      flagValue args "--format" = some (if ("jpg" : String) = "" then "png" else "jpg") :=
  buildParams_format_flag { Input := "x", Format := "jpg" } (by decide)

/-- C10: `ImageFromJSON` on a well-formed document with an empty page
list returns Go `(nil, nil)`: no bytes and no error. -/
theorem imageFromJSON_empty_pages {α β : Type} (env : DiscoveryEnv)
    (run : SpawnInfo → List Nat × Option String)
    (pngDecode : List Nat → Option α) (pngEncode : α → List Nat)
    (jpegDecode : List Nat → Option β) (jpegEncode : β → List Nat)
    (b64Decode : String → Except String String) (cache : StringStore)
    (jp : JsonPDFGenerator) (hp : jp.Pages = []) :
    ImageFromJSON env run pngDecode pngEncode jpegDecode jpegEncode b64Decode cache (.ok jp) =
      some (none, none) := by
  rw [ImageFromJSON]
  simp [hp]

theorem imageFromJSON_empty_pages_witness :
    ImageFromJSON ⟨.ok "/d", fun _ => none, ""⟩ (fun _ => ([], none))
        (fun _ => (none : Option Unit)) (fun _ => []) (fun _ => (none : Option Unit))
        (fun _ => []) (fun _ => .ok "") "" (.ok { Pages := [] }) = some (none, none) :=
  imageFromJSON_empty_pages _ _ _ _ _ _ _ _ { Pages := [] } rfl

/-- C2 (amended): with a non-empty explicit binary path, the spawned
process uses exactly that path and the translated argument list, for
every environment, subprocess behaviour and initial cache — so the
discovery result never influences what is spawned.  However (see the
counterexample) `GenerateImage` still calls `findPath()`
unconditionally, so on an empty cache the discovery lookups do run and
may modify the cache. -/
theorem generateImage_explicit_path_used {α β : Type} (env : DiscoveryEnv)
    (run : SpawnInfo → List Nat × Option String)
    (pngDecode : List Nat → Option α) (pngEncode : α → List Nat)
    (jpegDecode : List Nat → Option β) (jpegEncode : β → List Nat)
    (cache : StringStore) (opts : ImageOptions)
    (hb : opts.BinaryPath ≠ "") (hin : opts.Input ≠ "") :
    ∃ args opts1, buildParams opts = .ok (args, opts1) ∧
      (GenerateImage env run pngDecode pngEncode jpegDecode jpegEncode cache opts).spawned =
        some ⟨opts.BinaryPath, args, if opts1.Html ≠ "" then some opts1.Html else none⟩ := by
  obtain ⟨args, opts1, hbp⟩ : ∃ a o, buildParams opts = .ok (a, o) :=
    ⟨_, _, buildParams_eq opts hin⟩
  have hf := buildParams_fields opts args opts1 hbp
  refine ⟨args, opts1, hbp, ?_⟩
  rw [generateImage_spawned env run pngDecode pngEncode jpegDecode jpegEncode cache opts
    args opts1 hbp (by rw [hf.1]; exact hb), hf.1]

theorem generateImage_explicit_path_used_witness :
    ∃ args opts1, buildParams { BinaryPath := "/bin/wk", Input := "x" } = .ok (args, opts1) ∧
      (GenerateImage ⟨.ok "/d", fun _ => none, ""⟩ (fun _ => ([], none))
          (fun _ => (none : Option Unit)) (fun _ => []) (fun _ => (none : Option Unit))
          (fun _ => []) "" { BinaryPath := "/bin/wk", Input := "x" }).spawned =
        some ⟨"/bin/wk", args, if opts1.Html ≠ "" then some opts1.Html else none⟩ :=
  generateImage_explicit_path_used _ _ _ _ _ _ "" { BinaryPath := "/bin/wk", Input := "x" }
    (by decide) (by decide)

/-- C2 counterexample: with the explicit path `"/bin/wk"` supplied and
the cache empty, `GenerateImage` still performs a discovery lookup and
writes its hit into the cache (the claim says none of the lookups are
performed and the cache is not modified). -/
theorem generateImage_explicit_path_cx :
    (GenerateImage ⟨.ok "/d", fun _ => some "/d/wkhtmltoimage", ""⟩ (fun _ => ([], none))
        (fun _ => (none : Option Unit)) (fun _ => []) (fun _ => (none : Option Unit))
        (fun _ => []) "" { BinaryPath := "/bin/wk", Input := "x" }).lookups =
      ["lookPath adjacent"] ∧
    (GenerateImage ⟨.ok "/d", fun _ => some "/d/wkhtmltoimage", ""⟩ (fun _ => ([], none))
        (fun _ => (none : Option Unit)) (fun _ => []) (fun _ => (none : Option Unit))
        (fun _ => []) "" { BinaryPath := "/bin/wk", Input := "x" }).cache =
      "/d/wkhtmltoimage" ∧
    ("/d/wkhtmltoimage" : String) ≠ "" :=
  ⟨rfl, rfl, by decide⟩

/-- C3 (amended): with valid input, no explicit binary path, an empty
cache and all three discovery steps failing, `GenerateImage` returns
the empty byte slice and the error `"BinaryPath not set"` — the
internal `"wkhtmltoimage not found"` error of `findPath` is discarded
— and spawns no process. -/
theorem generateImage_discovery_failure {α β : Type} (env : DiscoveryEnv)
    (run : SpawnInfo → List Nat × Option String)
    (pngDecode : List Nat → Option α) (pngEncode : α → List Nat)
    (jpegDecode : List Nat → Option β) (jpegEncode : β → List Nat)
    (opts : ImageOptions) (d : String)
    (hin : opts.Input ≠ "") (hb : opts.BinaryPath = "")
    (h1 : env.exeDirAbs = .ok d)
    (h2 : lookHit (env.lookPath (joinPath d wkExe)) = none)
    (h3 : lookHit (env.lookPath wkExe) = none)
    (h4 : env.envVar = "" ∨ lookHit (env.lookPath (joinPath env.envVar wkExe)) = none) :
    (GenerateImage env run pngDecode pngEncode jpegDecode jpegEncode "" opts).result =
      some ([], some "BinaryPath not set") ∧
    (GenerateImage env run pngDecode pngEncode jpegDecode jpegEncode "" opts).spawned = none := by
  have hfp := findPath_all_fail env d h1 h2 h3 h4
  obtain ⟨args, opts1, hbp⟩ : ∃ a o, buildParams opts = .ok (a, o) :=
    ⟨_, _, buildParams_eq opts hin⟩
  have hf := buildParams_fields opts args opts1 hbp
  rw [generateImage_no_binary env run pngDecode pngEncode jpegDecode jpegEncode "" opts
    args opts1 hbp (by rw [hf.1]; exact hb) hfp.2]
  exact ⟨rfl, rfl⟩

theorem generateImage_discovery_failure_witness :
    (GenerateImage ⟨.ok "/d", fun _ => none, ""⟩ (fun _ => ([], none))
        (fun _ => (none : Option Unit)) (fun _ => []) (fun _ => (none : Option Unit))
        (fun _ => []) "" { Input := "y" }).result = some ([], some "BinaryPath not set") ∧
    (GenerateImage ⟨.ok "/d", fun _ => none, ""⟩ (fun _ => ([], none))
        (fun _ => (none : Option Unit)) (fun _ => []) (fun _ => (none : Option Unit))
        (fun _ => []) "" { Input := "y" }).spawned = none :=
  generateImage_discovery_failure _ _ _ _ _ _ { Input := "y" } "/d" (by decide) rfl rfl rfl rfl
    (Or.inl rfl)

/-- C3 counterexample: at a concrete input where every discovery step
fails, the returned error is `"BinaryPath not set"`, which is not the
claimed `"executable not found"` (nor even `findPath`'s own
`"wkhtmltoimage not found"`, which `GenerateImage` discards). -/
theorem generateImage_discovery_failure_cx :
    (GenerateImage ⟨.ok "/d", fun _ => none, ""⟩ (fun _ => ([], none))
        (fun _ => (none : Option Unit)) (fun _ => []) (fun _ => (none : Option Unit))
        (fun _ => []) "" { Input := "x" }).result = some ([], some "BinaryPath not set") ∧
    ("BinaryPath not set" : String) ≠ "executable not found" ∧
    ("BinaryPath not set" : String) ≠ "wkhtmltoimage not found" :=
  ⟨rfl, by decide, by decide⟩

/-- C4: when the input is non-empty and not the stdin sentinel but
HTML text is set, the translator clears the HTML before invocation, so
`GenerateImage` never pipes anything to the subprocess's standard
input (the spawn either does not happen, or happens with no stdin). -/
theorem buildParams_clears_html {α β : Type} (env : DiscoveryEnv)
    (run : SpawnInfo → List Nat × Option String)
    (pngDecode : List Nat → Option α) (pngEncode : α → List Nat)
    (jpegDecode : List Nat → Option β) (jpegEncode : β → List Nat)
    (cache : StringStore) (opts : ImageOptions)
    (h1 : opts.Input ≠ "") (h2 : opts.Input ≠ "-") (h3 : opts.Html ≠ "") :
    (∃ args opts1, buildParams opts = .ok (args, opts1) ∧ opts1.Html = "") ∧
    ((GenerateImage env run pngDecode pngEncode jpegDecode jpegEncode cache opts).spawned.map
        SpawnInfo.stdin = none ∨
      (GenerateImage env run pngDecode pngEncode jpegDecode jpegEncode cache opts).spawned.map
        SpawnInfo.stdin = some none) := by
  have hbp := buildParams_eq opts h1
  rw [if_pos h2] at hbp
  constructor
  · exact ⟨_, _, hbp, rfl⟩
  · by_cases hB : opts.BinaryPath = ""
    · by_cases hC : (findPath env cache).2.1 = ""
      · left
        rw [generateImage_no_binary env run pngDecode pngEncode jpegDecode jpegEncode cache opts
          _ _ hbp hB hC]
        rfl
      · right
        rw [GenerateImage, hbp]
        simp [hB, hC]
    · right
      rw [generateImage_spawned env run pngDecode pngEncode jpegDecode jpegEncode cache opts
        _ _ hbp hB]
      rfl

theorem buildParams_clears_html_witness :
    (∃ args opts1, buildParams { Input := "u", Html := "h" } = .ok (args, opts1) ∧
      opts1.Html = "") ∧
    ((GenerateImage ⟨.ok "/d", fun _ => none, ""⟩ (fun _ => ([], none))
        (fun _ => (none : Option Unit)) (fun _ => []) (fun _ => (none : Option Unit))
        (fun _ => []) "" { Input := "u", Html := "h" }).spawned.map SpawnInfo.stdin = none ∨
      (GenerateImage ⟨.ok "/d", fun _ => none, ""⟩ (fun _ => ([], none))
        (fun _ => (none : Option Unit)) (fun _ => []) (fun _ => (none : Option Unit))
        (fun _ => []) "" { Input := "u", Html := "h" }).spawned.map SpawnInfo.stdin =
        some none) :=
  buildParams_clears_html _ _ _ _ _ _ "" { Input := "u", Html := "h" }
    (by decide) (by decide) (by decide)

/-- C8 counterexample: with input equal to the literal token
`"--height"` and `Height = 0`, the string `"--height"` still appears
in the argument list (as the positional input), so "flag appears iff
field non-zero" fails as stated; the element following that first
occurrence is the output sentinel `"-"`, which does not parse back to
any integer. -/
theorem buildParams_flag_iff_cx :
    buildParams { Input := "--height" } =
      .ok (["-q", "--disable-plugins", "--format", "png", "--height", "-"],
        { Input := "--height" }) ∧
    "--height" ∈ ["-q", "--disable-plugins", "--format", "png", "--height", "-"] ∧
    ({ Input := "--height" } : ImageOptions).Height = 0 ∧
    flagValue ["-q", "--disable-plugins", "--format", "png", "--height", "-"] "--height" =
      some "-" ∧
    atoi "-" = none :=
  ⟨rfl, by decide, rfl, rfl, rfl⟩

/-- C8 (amended): for options whose `Input`, `Output` and `Format`
are not themselves one of the literal flag tokens `"--height"`,
`"--width"`, `"--quality"`, each of those flags appears in the
argument list iff the corresponding field is non-zero, and then the
element immediately following (the first occurrence of) the flag is
the base-10 rendering of the field, which parses back to the same
integer. -/
theorem buildParams_dimension_flags (opts : ImageOptions) (h : opts.Input ≠ "")
    (hI : opts.Input ∉ (["--height", "--width", "--quality"] : List String))
    (hO : opts.Output ∉ (["--height", "--width", "--quality"] : List String))
    (hF : opts.Format ∉ (["--height", "--width", "--quality"] : List String)) :
    ∃ args opts1, buildParams opts = .ok (args, opts1) ∧
      ("--height" ∈ args ↔ opts.Height ≠ 0) ∧
      ("--width" ∈ args ↔ opts.Width ≠ 0) ∧
      ("--quality" ∈ args ↔ opts.Quality ≠ 0) ∧
      (opts.Height ≠ 0 → flagValue args "--height" = some (itoa opts.Height) ∧
        atoi (itoa opts.Height) = some opts.Height) ∧
      (opts.Width ≠ 0 → flagValue args "--width" = some (itoa opts.Width) ∧
        atoi (itoa opts.Width) = some opts.Width) ∧
      (opts.Quality ≠ 0 → flagValue args "--quality" = some (itoa opts.Quality) ∧
        atoi (itoa opts.Quality) = some opts.Quality) := by
  obtain ⟨hI1, hI2, hI3⟩ :
      opts.Input ≠ "--height" ∧ opts.Input ≠ "--width" ∧ opts.Input ≠ "--quality" := by
    simpa using hI
  obtain ⟨hO1, hO2, hO3⟩ :
      opts.Output ≠ "--height" ∧ opts.Output ≠ "--width" ∧ opts.Output ≠ "--quality" := by
    simpa using hO
  obtain ⟨hF1, hF2, hF3⟩ :
      opts.Format ≠ "--height" ∧ opts.Format ≠ "--width" ∧ opts.Format ≠ "--quality" := by
    simpa using hF
  have hfmtH : (if opts.Format ≠ "" then opts.Format else "png") ≠ "--height" := by
    split
    · exact hF1
    · decide
  have hfmtW : (if opts.Format ≠ "" then opts.Format else "png") ≠ "--width" := by
    split
    · exact hF2
    · decide
  have hfmtQ : (if opts.Format ≠ "" then opts.Format else "png") ≠ "--quality" := by
    split
    · exact hF3
    · decide
  have houtH : (if opts.Output = "" then "-" else opts.Output) ≠ "--height" := by
    split
    · decide
    · exact hO1
  have houtW : (if opts.Output = "" then "-" else opts.Output) ≠ "--width" := by
    split
    · decide
    · exact hO2
  have houtQ : (if opts.Output = "" then "-" else opts.Output) ≠ "--quality" := by
    split
    · decide
    · exact hO3
  have hBH : "--height" ∈ (if opts.Height ≠ 0 then ["--height", itoa opts.Height] else []) ↔
      opts.Height ≠ 0 := by
    by_cases hH : opts.Height = 0 <;> simp [hH]
  have hCW : "--width" ∈ (if opts.Width ≠ 0 then ["--width", itoa opts.Width] else []) ↔
      opts.Width ≠ 0 := by
    by_cases hW : opts.Width = 0 <;> simp [hW]
  have hDQ : "--quality" ∈ (if opts.Quality ≠ 0 then ["--quality", itoa opts.Quality] else []) ↔
      opts.Quality ≠ 0 := by
    by_cases hQ : opts.Quality = 0 <;> simp [hQ]
  have hBW : "--width" ∉ (if opts.Height ≠ 0 then ["--height", itoa opts.Height] else []) := by
    split <;> simp [(itoa_ne_width opts.Height).symm]
  have hBQ : "--quality" ∉ (if opts.Height ≠ 0 then ["--height", itoa opts.Height] else []) := by
    split <;> simp [(itoa_ne_quality opts.Height).symm]
  have hCH : "--height" ∉ (if opts.Width ≠ 0 then ["--width", itoa opts.Width] else []) := by
    split <;> simp [(itoa_ne_height opts.Width).symm]
  have hCQ : "--quality" ∉ (if opts.Width ≠ 0 then ["--width", itoa opts.Width] else []) := by
    split <;> simp [(itoa_ne_quality opts.Width).symm]
  have hDH : "--height" ∉ (if opts.Quality ≠ 0 then ["--quality", itoa opts.Quality] else []) := by
    split <;> simp [(itoa_ne_height opts.Quality).symm]
  have hDW : "--width" ∉ (if opts.Quality ≠ 0 then ["--quality", itoa opts.Quality] else []) := by
    split <;> simp [(itoa_ne_width opts.Quality).symm]
  have hfmtH2 : ¬(("--height" : String) = if opts.Format = "" then "png" else opts.Format) := by
    split
    · decide
    · exact fun e => hF1 e.symm
  have hfmtW2 : ¬(("--width" : String) = if opts.Format = "" then "png" else opts.Format) := by
    split
    · decide
    · exact fun e => hF2 e.symm
  have hfmtQ2 : ¬(("--quality" : String) = if opts.Format = "" then "png" else opts.Format) := by
    split
    · decide
    · exact fun e => hF3 e.symm
  refine ⟨_, _, buildParams_eq opts h, ?_, ?_, ?_, ?_, ?_, ?_⟩
  · simp [List.mem_cons, List.mem_append, hfmtH.symm, hCH, hDH, hBH, hI1.symm, houtH.symm,
      hfmtH2, (itoa_ne_height opts.Width).symm, (itoa_ne_height opts.Quality).symm]
  · simp [List.mem_cons, List.mem_append, hfmtW.symm, hBW, hDW, hCW, hI2.symm, houtW.symm,
      hfmtW2, (itoa_ne_width opts.Height).symm, (itoa_ne_width opts.Quality).symm]
  · simp [List.mem_cons, List.mem_append, hfmtQ.symm, hBQ, hCQ, hDQ, hI3.symm, houtQ.symm,
      hfmtQ2, (itoa_ne_quality opts.Height).symm, (itoa_ne_quality opts.Width).symm]
  · intro hH
    rw [if_pos hH, flagValue_cons_ne _ _ _ (by decide), flagValue_cons_ne _ _ _ (by decide),
      flagValue_cons_ne _ _ _ (by decide), flagValue_cons_ne _ _ _ hfmtH, List.cons_append,
      flagValue_cons_self]
    exact ⟨by simp, atoi_itoa _⟩
  · intro hW
    rw [if_pos hW, flagValue_cons_ne _ _ _ (by decide), flagValue_cons_ne _ _ _ (by decide),
      flagValue_cons_ne _ _ _ (by decide), flagValue_cons_ne _ _ _ hfmtW,
      flagValue_append_of_not_mem _ _ _ hBW, List.cons_append, flagValue_cons_self]
    exact ⟨by simp, atoi_itoa _⟩
  · intro hQ
    rw [if_pos hQ, flagValue_cons_ne _ _ _ (by decide), flagValue_cons_ne _ _ _ (by decide),
      flagValue_cons_ne _ _ _ (by decide), flagValue_cons_ne _ _ _ hfmtQ,
      flagValue_append_of_not_mem _ _ _ hBQ, flagValue_append_of_not_mem _ _ _ hCQ,
      List.cons_append, flagValue_cons_self]
    exact ⟨by simp, atoi_itoa _⟩

theorem buildParams_dimension_flags_witness :
    ∃ args opts1, buildParams { Input := "x", Height := 5 } = .ok (args, opts1) ∧
      ("--height" ∈ args ↔ (5 : Int) ≠ 0) ∧
      ("--width" ∈ args ↔ (0 : Int) ≠ 0) ∧
      ("--quality" ∈ args ↔ (0 : Int) ≠ 0) ∧
      ((5 : Int) ≠ 0 → flagValue args "--height" = some (itoa 5) ∧ atoi (itoa 5) = some 5) ∧
      ((0 : Int) ≠ 0 → flagValue args "--width" = some (itoa 0) ∧ atoi (itoa 0) = some 0) ∧
      ((0 : Int) ≠ 0 → flagValue args "--quality" = some (itoa 0) ∧ atoi (itoa 0) = some 0) :=
  buildParams_dimension_flags { Input := "x", Height := 5 }
    (by decide) (by decide) (by decide) (by decide)

end Wk
